import Mathlib

/-!
Shallow embedding of gmlib.js and verification of its specification.

The repository provides a DOM query shorthand, a cross-origin HTTP helper
(GMXHR) and a TTL cache (Cache) over two key-value storage backends
(localStorage and the privileged GM script store).  The cache is the core;
we embed it faithfully, line references are to src/gmlib.js.

Modelling decisions, all visible in the definitions below:
- JSON.stringify / JSON.parse are JS builtins, not code of this repository.
  The storage medium holds strings; we abstract a stored string at exactly
  the level the cache consumes it: either the stringification of a cache
  entry object (constructor Raw.entry, carrying its two fields), or any
  other text (constructor Raw.junk), on which JSON.parse throws.
- The executor passed to new Promise on line 113 is an async function and
  only binds resolve.  An exception inside it (JSON.parse on line 118, a
  producer throw on line 129, an awaited rejection on line 130) rejects the
  discarded inner promise, so the promise cache returns never settles; the
  model records that terminal state as Outcome.stuck.
- Both reads of new Date().getTime() inside one call (lines 119 and 134)
  are modelled as the same instant, the parameter now.
- The shared debug function of the GMLib closure (line 9), reassignable by
  a quiet Cache construction (line 79), is a Bool flag threaded explicitly;
  log emissions are counted, since only their presence matters.
-/

namespace GMLib

/-- JSON values, as consumed and produced by the JSON.stringify and
JSON.parse builtins that the cache uses to encode entries.  Numbers are
modelled as integers: the code itself only stores integer timestamps, and
caller values are round-tripped structurally. -/
inductive Json where
  | null : Json
  | bool (b : Bool) : Json
  | num (n : Int) : Json
  | str (s : String) : Json
  | arr (elems : List Json) : Json
  | obj (fields : List (String × Json)) : Json

/-- A JavaScript value a producer can yield: undefined, or a JSON value
(which includes null). -/
inductive JsVal where
  | undef : JsVal
  | json (j : Json) : JsVal

/-- The negation of the guard on line 132 (value !== undefined && value !==
null): the values the cache refuses to persist. -/
def JsVal.isNullish : JsVal → Bool
  | JsVal.undef => true
  | JsVal.json Json.null => true
  | _ => false

/-- A raw string in the storage medium, abstracted at the level the cache
reads it back: Raw.entry s v stands for the string JSON.stringify produces
from the entry object with fields stored = s and value = v (always a
non-empty, hence truthy, string), and Raw.junk txt stands for any other
stored text, on which JSON.parse throws a SyntaxError.  The empty such
text is falsy in JS and so never reaches JSON.parse (line 117). -/
inductive Raw where
  | entry (stored : Int) (value : Json) : Raw
  | junk (txt : String) : Raw

/-- The storage medium behind either adapter (lines 81-96): a key-value
store of raw strings, modelled as an association list.  siteStorage wraps
localStorage, scriptStorage wraps the GM_getValue family; over this model
both expose the same get, set, delete and keys behaviour. -/
abbrev Store := List (String × Raw)

/-- Backend get: the stored raw string for the key, or an absent marker. -/
def storeGet : Store → String → Option Raw
  | [], _ => none
  | (k2, v) :: rest, k => if k2 = k then some v else storeGet rest k

/-- Backend set: overwrites the value at the key, inserting if absent. -/
def storeSet : Store → String → Raw → Store
  | [], k, v => [(k, v)]
  | (k2, v2) :: rest, k, v =>
      if k2 = k then (k, v) :: rest else (k2, v2) :: storeSet rest k v

/-- Backend delete: removes the key from the store. -/
def storeDelete : Store → String → Store
  | [], _ => []
  | (k2, v2) :: rest, k =>
      if k2 = k then storeDelete rest k else (k2, v2) :: storeDelete rest k

/-- Backend keys: every key in the store, in order (Object.keys /
GM_listValues); unfiltered, namespacing is the responsibility of the
cache. -/
def storeKeys (st : Store) : List String := st.map fun p => p.1

/-- JS String.startsWith: the receiver s begins with the text pre. -/
def startsWith (s pre : String) : Bool := List.isPrefixOf pre.data s.data

/-- Line 78: the fixed namespace applied to every cache key. -/
def NAMESPACE : String := "gmlib|"

/-- Line 77: TTL = (ttl or 3600 * 24 * 2) * 1000.  The ttl argument is an
optional number of seconds; none models an omitted (undefined) argument
and some 0 the falsy numeric argument 0; both fall back to the two-day
default before the conversion to milliseconds. -/
def ttlMillis (ttl : Option Int) : Int :=
  (match ttl with
   | none => 3600 * 24 * 2
   | some t => if t = 0 then 3600 * 24 * 2 else t) * 1000

/-- Behaviour of a caller-supplied producer f for one invocation: it
either yields a value (returned directly or through a promise, which line
130 awaits, collapsing the two cases), or fails (a synchronous throw or a
promise rejection; inside the async executor the two behave alike). -/
inductive ProducerResult where
  | val (v : JsVal) : ProducerResult
  | exn (e : String) : ProducerResult

/-- How a call to cache(key, f) ends.  The executor on line 113 receives
only resolve, never reject, so the returned promise either resolves or,
when the executor body throws, never settles: the exception rejects only
the discarded inner async-function promise.  Outcome.stuck e records that
hung state, e being the lost rejection reason. -/
inductive Outcome where
  | resolved (v : JsVal) : Outcome
  | stuck (e : String) : Outcome

/-- Observable effect of one cache(key, f) call: how the returned promise
ends, the backend store afterwards, how many times f ran, and how many
warn and debug lines were emitted. -/
structure CacheCall where
  outcome : Outcome
  store : Store
  calls : Nat
  warns : Nat
  debugs : Nat

/-- Lines 127-140, the refresh path taken when the entry is absent, falsy
or expired: one debug line (when the shared debug binding is active), then
f runs once.  A failing f sticks the promise; a null or undefined value is
not written and draws a warning; any other value is serialized with
timestamp now and written under the namespaced key; the promise resolves
with the value. -/
def cacheMiss (debugOn : Bool) (now : Int) (st : Store) (key : String)
    (f : ProducerResult) : CacheCall :=
  match f with
  | ProducerResult.exn e => ⟨Outcome.stuck e, st, 1, 0, if debugOn then 1 else 0⟩
  | ProducerResult.val JsVal.undef =>
      ⟨Outcome.resolved JsVal.undef, st, 1, 1, if debugOn then 1 else 0⟩
  | ProducerResult.val (JsVal.json Json.null) =>
      ⟨Outcome.resolved (JsVal.json Json.null), st, 1, 1, if debugOn then 1 else 0⟩
  | ProducerResult.val (JsVal.json j) =>
      ⟨Outcome.resolved (JsVal.json j),
       storeSet st (NAMESPACE ++ key) (Raw.entry now j), 1, 0, if debugOn then 1 else 0⟩

/-- Lines 112-142: async function cache(key, f).  Reads the raw string at
the namespaced key; when truthy it is parsed (a parse failure sticks the
promise, see Outcome) and a non-expired entry, one with
now - stored <= TTL, resolves immediately with the stored value, without
touching f; otherwise the refresh path cacheMiss runs. -/
def cache (TTL : Int) (debugOn : Bool) (now : Int) (st : Store) (key : String)
    (f : ProducerResult) : CacheCall :=
  match storeGet st (NAMESPACE ++ key) with
  | some (Raw.entry stored value) =>
      if now - stored > TTL then cacheMiss debugOn now st key f
      else ⟨Outcome.resolved (JsVal.json value), st, 0, 0, 0⟩
  | some (Raw.junk txt) =>
      if txt = "" then cacheMiss debugOn now st key f
      else ⟨Outcome.stuck "SyntaxError from JSON.parse", st, 0, 0, 0⟩
  | none => cacheMiss debugOn now st key f

/-- Lines 144-149: cache.clear(p).  Enumerates the backend keys, keeps
those starting with NAMESPACE followed by p (p falsy, i.e. omitted or
empty, contributes the empty string), and deletes each; no check of entry
freshness anywhere. -/
def clear (st : Store) (p : Option String) : Store :=
  ((storeKeys st).filter fun k => startsWith k (NAMESPACE ++ p.getD "")).foldl
    storeDelete st

/-- The two storage adapters (lines 81-96): siteStorage wraps the
page-scoped localStorage, scriptStorage the script-scoped privileged GM
value store.  Over the abstract Store both behave identically, so the
selected adapter is reduced to this tag. -/
inductive StorageAdapter where
  | siteStorage : StorageAdapter
  | scriptStorage : StorageAdapter

/-- Lines 97-101: chooseStorage.  The tokens local and script select their
adapters; any other token throws the bare string below. -/
def chooseStorage (storageType : String) : Except String StorageAdapter :=
  if storageType = "local" then Except.ok StorageAdapter.siteStorage
  else if storageType = "script" then Except.ok StorageAdapter.scriptStorage
  else Except.error "Invalid storage type! Valid options are \"local\" or \"script\""

/-- A constructed cache instance: its TTL in milliseconds and the adapter
bound at construction (lines 77 and 103). -/
structure CacheInstance where
  TTL : Int
  storage : StorageAdapter

/-- Lines 76-103: function Cache(storageType, ttl, quiet).  Takes the
shared debug flag of the enclosing GMLib closure and returns the instance
(or the thrown error) together with that flag afterwards.  Note the
source order: a truthy quiet replaces the shared debug binding with a
no-op (line 79) before chooseStorage can throw, and a later non-quiet
construction leaves a silenced binding as it is. -/
def Cache (storageType : String) (ttl : Option Int) (quiet : Bool)
    (debugOn : Bool) : Except String CacheInstance × Bool :=
  match chooseStorage storageType with
  | Except.ok ad => (Except.ok ⟨ttlMillis ttl, ad⟩, if quiet then false else debugOn)
  | Except.error e => (Except.error e, if quiet then false else debugOn)

/-- The host response fields GMXHR.get consumes (lines 26-33). -/
structure XhrResponse where
  status : Int
  responseText : String

/-- Lines 19-36: GMXHR.get applied to the host response.  Emits one debug
line when the shared debug binding is active; on a status in [200, 300)
resolves with the body text, otherwise emits one error line and rejects
with the numeric status.  Result: (settlement, debug lines, error
lines). -/
def GMXHR.get (debugOn : Bool) (resp : XhrResponse) :
    Except Int String × Nat × Nat :=
  if 200 ≤ resp.status ∧ resp.status < 300 then
    (Except.ok resp.responseText, (if debugOn then 1 else 0), 0)
  else
    (Except.error resp.status, (if debugOn then 1 else 0), 1)

/-- True of a raw string unless it serializes an entry whose value field
is the JSON null (an undefined value field is not expressible in the
stored text at all). -/
def entryValueNonNull : Raw → Bool
  | Raw.entry _ Json.null => false
  | _ => true

/-- Every raw string in the store passes entryValueNonNull. -/
def storeValuesNonNull (st : Store) : Bool :=
  st.all fun p => entryValueNonNull p.2

/-! ## Basic facts about the storage model -/

theorem storeGet_storeSet_self (st : Store) (k : String) (v : Raw) :
    storeGet (storeSet st k v) k = some v := by
  induction st with
  | nil => simp [storeSet, storeGet]
  | cons q rest ih =>
      obtain ⟨k2, v2⟩ := q
      by_cases h : k2 = k <;> simp [storeSet, storeGet, h, ih]

theorem storeGet_storeDelete (st : Store) (a k : String) :
    storeGet (storeDelete st a) k = if k = a then none else storeGet st k := by
  induction st with
  | nil => simp [storeDelete, storeGet]
  | cons q rest ih =>
      obtain ⟨k2, v2⟩ := q
      by_cases h1 : k2 = a <;> by_cases h2 : k = a <;> by_cases h3 : k2 = k <;>
        simp_all [storeDelete, storeGet]

theorem storeGet_foldl_storeDelete (ks : List String) (st : Store) (k : String) :
    storeGet (ks.foldl storeDelete st) k = if k ∈ ks then none else storeGet st k := by
  induction ks generalizing st with
  | nil => simp
  | cons a rest ih =>
      simp only [List.foldl_cons, ih, storeGet_storeDelete, List.mem_cons]
      by_cases h1 : k ∈ rest <;> by_cases h2 : k = a <;> simp [h1, h2]

theorem storeGet_eq_none_of_not_mem (st : Store) (k : String)
    (h : ¬ k ∈ storeKeys st) : storeGet st k = none := by
  induction st with
  | nil => rfl
  | cons q rest ih =>
      obtain ⟨k2, v2⟩ := q
      simp only [storeKeys, List.map_cons, List.mem_cons] at h
      push_neg at h
      have hne : k2 ≠ k := fun e => h.1 e.symm
      simp only [storeGet, if_neg hne]
      exact ih h.2

/-! ## Unfolding lemmas for the cache paths -/

theorem cache_none_eq (TTL : Int) (d : Bool) (now : Int) (st : Store) (k : String)
    (f : ProducerResult) (h : storeGet st (NAMESPACE ++ k) = none) :
    cache TTL d now st k f = cacheMiss d now st k f := by
  unfold cache
  rw [h]

theorem cache_entry_eq (TTL : Int) (d : Bool) (now T : Int) (st : Store) (k : String)
    (w : Json) (f : ProducerResult)
    (h : storeGet st (NAMESPACE ++ k) = some (Raw.entry T w)) :
    cache TTL d now st k f =
      if now - T > TTL then cacheMiss d now st k f
      else ⟨Outcome.resolved (JsVal.json w), st, 0, 0, 0⟩ := by
  unfold cache
  rw [h]

theorem cache_junk_eq (TTL : Int) (d : Bool) (now : Int) (st : Store) (k : String)
    (txt : String) (f : ProducerResult)
    (h : storeGet st (NAMESPACE ++ k) = some (Raw.junk txt)) :
    cache TTL d now st k f =
      if txt = "" then cacheMiss d now st k f
      else ⟨Outcome.stuck "SyntaxError from JSON.parse", st, 0, 0, 0⟩ := by
  unfold cache
  rw [h]

theorem cacheMiss_val_json (d : Bool) (now : Int) (st : Store) (k : String)
    (j : Json) (hj : j ≠ Json.null) :
    cacheMiss d now st k (ProducerResult.val (JsVal.json j)) =
      ⟨Outcome.resolved (JsVal.json j),
       storeSet st (NAMESPACE ++ k) (Raw.entry now j), 1, 0,
       if d then 1 else 0⟩ := by
  cases j with
  | null => exact absurd rfl hj
  | bool b => rfl
  | num n => rfl
  | str s => rfl
  | arr xs => rfl
  | obj fs => rfl

theorem cacheMiss_calls (d : Bool) (now : Int) (st : Store) (k : String)
    (f : ProducerResult) : (cacheMiss d now st k f).calls = 1 := by
  cases f with
  | exn e => rfl
  | val v =>
      cases v with
      | undef => rfl
      | json j => cases j <;> rfl

theorem cacheMiss_debugs (now : Int) (st : Store) (k : String)
    (f : ProducerResult) : (cacheMiss false now st k f).debugs = 0 := by
  cases f with
  | exn e => rfl
  | val v =>
      cases v with
      | undef => rfl
      | json j => cases j <;> rfl

/-! ## Claims -/

/-- Claim C1: for a cache instance with TTL t and a key holding a stored
entry written at time T, a call at time T2 with T2 - T <= t resolves with
the stored value without invoking the producer, while a call with
T2 - T > t invokes the producer (the entry is treated as expired). -/
theorem cache_ttl_boundary (TTL : Int) (d : Bool) (T now2 : Int) (st : Store)
    (k : String) (v : Json) (f : ProducerResult)
    (h : storeGet st (NAMESPACE ++ k) = some (Raw.entry T v)) :
    (now2 - T ≤ TTL →
        (cache TTL d now2 st k f).outcome = Outcome.resolved (JsVal.json v) ∧
        (cache TTL d now2 st k f).calls = 0) ∧
    (now2 - T > TTL → (cache TTL d now2 st k f).calls = 1) := by
  rw [cache_entry_eq TTL d now2 T st k v f h]
  constructor
  · intro hle
    rw [if_neg (by omega)]
    exact ⟨rfl, rfl⟩
  · intro hgt
    rw [if_pos hgt]
    exact cacheMiss_calls d now2 st k f

theorem cache_ttl_boundary_witness :
    ((cache 1000 true 500 [(NAMESPACE ++ "k", Raw.entry 0 (Json.num 7))] "k"
        (ProducerResult.val (JsVal.json (Json.num 1)))).outcome
      = Outcome.resolved (JsVal.json (Json.num 7)) ∧
     (cache 1000 true 500 [(NAMESPACE ++ "k", Raw.entry 0 (Json.num 7))] "k"
        (ProducerResult.val (JsVal.json (Json.num 1)))).calls = 0) ∧
    (cache 1000 true 2000 [(NAMESPACE ++ "k", Raw.entry 0 (Json.num 7))] "k"
        (ProducerResult.val (JsVal.json (Json.num 1)))).calls = 1 :=
  ⟨(cache_ttl_boundary 1000 true 0 500 [(NAMESPACE ++ "k", Raw.entry 0 (Json.num 7))]
      "k" (Json.num 7) (ProducerResult.val (JsVal.json (Json.num 1))) rfl).1 (by decide),
   (cache_ttl_boundary 1000 true 0 2000 [(NAMESPACE ++ "k", Raw.entry 0 (Json.num 7))]
      "k" (Json.num 7) (ProducerResult.val (JsVal.json (Json.num 1))) rfl).2 (by decide)⟩

/-- Claim C2 as frozen is false on the code: a producer returning null is
refused by the write on line 132, so nothing is stored and an immediately
following call for the same key misses again and invokes the producer a
second time - two invocations in total, not at most one. -/
theorem cache_double_call_null_invokes_twice :
    (cache 172800000 true 0 [] "k"
        (ProducerResult.val (JsVal.json Json.null))).calls +
      (cache 172800000 true 0
        (cache 172800000 true 0 [] "k"
          (ProducerResult.val (JsVal.json Json.null))).store
        "k" (ProducerResult.val (JsVal.json Json.null))).calls = 2 := rfl

/-- Claim C2 amended: for every key and every producer whose result is
neither null nor undefined, on an instance with nonnegative TTL and a
store whose raw string at the key (if any) is parseable, calling the cache
twice in immediate succession invokes the producer at most once in total,
and the second call resolves with the same value as the first without
invoking it. -/
theorem cache_fresh_hit_idempotent (TTL : Int) (hT : 0 ≤ TTL) (d : Bool)
    (now : Int) (st : Store) (k : String) (v : Json) (hv : v ≠ Json.null)
    (hwf : ∀ s, storeGet st (NAMESPACE ++ k) ≠ some (Raw.junk s)) :
    (cache TTL d now st k (ProducerResult.val (JsVal.json v))).calls +
      (cache TTL d now
        (cache TTL d now st k (ProducerResult.val (JsVal.json v))).store k
        (ProducerResult.val (JsVal.json v))).calls ≤ 1 ∧
    (cache TTL d now
        (cache TTL d now st k (ProducerResult.val (JsVal.json v))).store k
        (ProducerResult.val (JsVal.json v))).calls = 0 ∧
    (cache TTL d now
        (cache TTL d now st k (ProducerResult.val (JsVal.json v))).store k
        (ProducerResult.val (JsVal.json v))).outcome =
      (cache TTL d now st k (ProducerResult.val (JsVal.json v))).outcome := by
  cases h : storeGet st (NAMESPACE ++ k) with
  | none =>
      have h1 : cache TTL d now st k (ProducerResult.val (JsVal.json v)) =
          ⟨Outcome.resolved (JsVal.json v),
           storeSet st (NAMESPACE ++ k) (Raw.entry now v), 1, 0,
           if d then 1 else 0⟩ := by
        rw [cache_none_eq _ _ _ _ _ _ h, cacheMiss_val_json _ _ _ _ _ hv]
      have h2 : cache TTL d now (storeSet st (NAMESPACE ++ k) (Raw.entry now v)) k
          (ProducerResult.val (JsVal.json v)) =
          ⟨Outcome.resolved (JsVal.json v),
           storeSet st (NAMESPACE ++ k) (Raw.entry now v), 0, 0, 0⟩ := by
        rw [cache_entry_eq _ _ _ _ _ _ _ _
              (storeGet_storeSet_self st (NAMESPACE ++ k) (Raw.entry now v)),
            if_neg (by omega)]
      exact ⟨by simp [h1, h2], by simp [h1, h2], by simp [h1, h2]⟩
  | some r =>
      cases r with
      | junk txt => exact absurd h (hwf txt)
      | entry T w =>
          by_cases hexp : now - T > TTL
          · have h1 : cache TTL d now st k (ProducerResult.val (JsVal.json v)) =
                ⟨Outcome.resolved (JsVal.json v),
                 storeSet st (NAMESPACE ++ k) (Raw.entry now v), 1, 0,
                 if d then 1 else 0⟩ := by
              rw [cache_entry_eq _ _ _ _ _ _ _ _ h, if_pos hexp,
                  cacheMiss_val_json _ _ _ _ _ hv]
            have h2 : cache TTL d now (storeSet st (NAMESPACE ++ k) (Raw.entry now v)) k
                (ProducerResult.val (JsVal.json v)) =
                ⟨Outcome.resolved (JsVal.json v),
                 storeSet st (NAMESPACE ++ k) (Raw.entry now v), 0, 0, 0⟩ := by
              rw [cache_entry_eq _ _ _ _ _ _ _ _
                    (storeGet_storeSet_self st (NAMESPACE ++ k) (Raw.entry now v)),
                  if_neg (by omega)]
            exact ⟨by simp [h1, h2], by simp [h1, h2], by simp [h1, h2]⟩
          · have h1 : cache TTL d now st k (ProducerResult.val (JsVal.json v)) =
                ⟨Outcome.resolved (JsVal.json w), st, 0, 0, 0⟩ := by
              rw [cache_entry_eq _ _ _ _ _ _ _ _ h, if_neg hexp]
            exact ⟨by simp [h1], by simp [h1], by simp [h1]⟩

theorem cache_fresh_hit_idempotent_witness :
    (cache 172800000 true 0 [] "k"
        (ProducerResult.val (JsVal.json (Json.num 7)))).calls +
      (cache 172800000 true 0
        (cache 172800000 true 0 [] "k"
          (ProducerResult.val (JsVal.json (Json.num 7)))).store "k"
        (ProducerResult.val (JsVal.json (Json.num 7)))).calls ≤ 1 ∧
    (cache 172800000 true 0
        (cache 172800000 true 0 [] "k"
          (ProducerResult.val (JsVal.json (Json.num 7)))).store "k"
        (ProducerResult.val (JsVal.json (Json.num 7)))).calls = 0 ∧
    (cache 172800000 true 0
        (cache 172800000 true 0 [] "k"
          (ProducerResult.val (JsVal.json (Json.num 7)))).store "k"
        (ProducerResult.val (JsVal.json (Json.num 7)))).outcome =
      (cache 172800000 true 0 [] "k"
        (ProducerResult.val (JsVal.json (Json.num 7)))).outcome :=
  cache_fresh_hit_idempotent 172800000 (by decide) true 0 [] "k" (Json.num 7)
    (fun hq => Json.noConfusion hq) (fun s hq => Option.noConfusion hq)

/-- Claim C3: the code contradicts it (and its own doc comment, which
promises a promise yielding either the cached value or the producer
result).  The executor on line 113 is an async function binding only
resolve, so a producer failure rejects the discarded inner promise and the
promise returned by cache never settles instead of rejecting; no entry is
written.  Evaluated here at a producer failing with reason boom on a miss:
the call ends stuck, the store is untouched. -/
theorem cache_producer_throw_hangs :
    (cache 172800000 true 0 [] "k" (ProducerResult.exn "boom")).outcome
        = Outcome.stuck "boom" ∧
    (cache 172800000 true 0 [] "k" (ProducerResult.exn "boom")).store = [] ∧
    (cache 172800000 true 0 [] "k" (ProducerResult.exn "boom")).calls = 1 :=
  ⟨rfl, rfl, rfl⟩

/-- Claim C5: the code contradicts it.  A stored raw string that JSON.parse
cannot parse (here the text oops under the namespaced key) is not treated
as a miss: JSON.parse throws inside the async executor on line 118, the
promise returned by cache never settles, and the producer is never
invoked. -/
theorem cache_malformed_entry_hangs :
    (cache 172800000 true 0 [(NAMESPACE ++ "k", Raw.junk "oops")] "k"
        (ProducerResult.val (JsVal.json (Json.num 1)))).outcome
      = Outcome.stuck "SyntaxError from JSON.parse" ∧
    (cache 172800000 true 0 [(NAMESPACE ++ "k", Raw.junk "oops")] "k"
        (ProducerResult.val (JsVal.json (Json.num 1)))).calls = 0 :=
  ⟨rfl, rfl⟩

theorem storeValuesNonNull_storeSet (st : Store) (k : String) (r : Raw)
    (hst : storeValuesNonNull st = true) (hr : entryValueNonNull r = true) :
    storeValuesNonNull (storeSet st k r) = true := by
  induction st with
  | nil => simp [storeSet, storeValuesNonNull, hr]
  | cons q rest ih =>
      obtain ⟨k2, v2⟩ := q
      simp only [storeValuesNonNull, List.all_cons, Bool.and_eq_true] at hst
      by_cases h : k2 = k
      · simp [storeSet, h, storeValuesNonNull, hr, hst.2]
      · have := ih hst.2
        simp only [storeValuesNonNull] at this
        simp [storeSet, h, storeValuesNonNull, hst.1, this]

theorem storeValuesNonNull_storeDelete (st : Store) (k : String)
    (hst : storeValuesNonNull st = true) :
    storeValuesNonNull (storeDelete st k) = true := by
  induction st with
  | nil => rfl
  | cons q rest ih =>
      obtain ⟨k2, v2⟩ := q
      simp only [storeValuesNonNull, List.all_cons, Bool.and_eq_true] at hst
      have := ih hst.2
      simp only [storeValuesNonNull] at this
      by_cases h : k2 = k <;> simp [storeDelete, h, storeValuesNonNull, hst.1, this]

theorem storeValuesNonNull_foldl_delete (ks : List String) (st : Store)
    (hst : storeValuesNonNull st = true) :
    storeValuesNonNull (ks.foldl storeDelete st) = true := by
  induction ks generalizing st with
  | nil => exact hst
  | cons a rest ih => exact ih _ (storeValuesNonNull_storeDelete st a hst)

/-- Claim C4: no operation ever persists a null or undefined value.  When
the producer runs and yields such a value, the write is skipped, one
warning is emitted, and the call still resolves with that value; and both
cache and clear preserve the invariant that no stored raw string encodes
an entry with a null value field (an undefined one is not even encodable
in the stored text). -/
theorem cache_never_persists_nullish (TTL : Int) (d : Bool) (now : Int)
    (st : Store) (k : String) (f : ProducerResult) (p : Option String) :
    (∀ v : JsVal, f = ProducerResult.val v → v.isNullish = true →
        (cache TTL d now st k f).calls = 1 →
        (cache TTL d now st k f).store = st ∧
        (cache TTL d now st k f).warns = 1 ∧
        (cache TTL d now st k f).outcome = Outcome.resolved v) ∧
    (storeValuesNonNull st = true →
        storeValuesNonNull (cache TTL d now st k f).store = true) ∧
    (storeValuesNonNull st = true →
        storeValuesNonNull (clear st p) = true) := by
  have hmiss1 : ∀ v : JsVal, f = ProducerResult.val v → v.isNullish = true →
      cacheMiss d now st k f =
        ⟨Outcome.resolved v, st, 1, 1, if d then 1 else 0⟩ := by
    intro v hf hnull
    subst hf
    cases v with
    | undef => rfl
    | json j =>
        cases j with
        | null => rfl
        | bool b => exact Bool.noConfusion hnull
        | num n => exact Bool.noConfusion hnull
        | str s => exact Bool.noConfusion hnull
        | arr xs => exact Bool.noConfusion hnull
        | obj fs => exact Bool.noConfusion hnull
  have hmiss2 : storeValuesNonNull st = true →
      storeValuesNonNull (cacheMiss d now st k f).store = true := by
    intro hst
    cases f with
    | exn e => exact hst
    | val v =>
        cases v with
        | undef => exact hst
        | json j =>
            cases j with
            | null => exact hst
            | bool b => exact storeValuesNonNull_storeSet st _ _ hst rfl
            | num n => exact storeValuesNonNull_storeSet st _ _ hst rfl
            | str s => exact storeValuesNonNull_storeSet st _ _ hst rfl
            | arr xs => exact storeValuesNonNull_storeSet st _ _ hst rfl
            | obj fs => exact storeValuesNonNull_storeSet st _ _ hst rfl
  refine ⟨?_, ?_, ?_⟩
  · intro v hf hnull
    cases h : storeGet st (NAMESPACE ++ k) with
    | none =>
        rw [cache_none_eq _ _ _ _ _ _ h, hmiss1 v hf hnull]
        exact fun _ => ⟨rfl, rfl, rfl⟩
    | some r =>
        cases r with
        | entry T w =>
            rw [cache_entry_eq _ _ _ _ _ _ _ _ h]
            by_cases hexp : now - T > TTL
            · rw [if_pos hexp, hmiss1 v hf hnull]
              exact fun _ => ⟨rfl, rfl, rfl⟩
            · rw [if_neg hexp]
              intro hcalls
              simp at hcalls
        | junk txt =>
            rw [cache_junk_eq _ _ _ _ _ _ _ h]
            by_cases he : txt = ""
            · rw [if_pos he, hmiss1 v hf hnull]
              exact fun _ => ⟨rfl, rfl, rfl⟩
            · rw [if_neg he]
              intro hcalls
              simp at hcalls
  · intro hst
    cases h : storeGet st (NAMESPACE ++ k) with
    | none => rw [cache_none_eq _ _ _ _ _ _ h]; exact hmiss2 hst
    | some r =>
        cases r with
        | entry T w =>
            rw [cache_entry_eq _ _ _ _ _ _ _ _ h]
            by_cases hexp : now - T > TTL
            · rw [if_pos hexp]; exact hmiss2 hst
            · rw [if_neg hexp]; exact hst
        | junk txt =>
            rw [cache_junk_eq _ _ _ _ _ _ _ h]
            by_cases he : txt = ""
            · rw [if_pos he]; exact hmiss2 hst
            · rw [if_neg he]; exact hst
  · intro hst
    exact storeValuesNonNull_foldl_delete _ st hst

theorem cache_never_persists_nullish_witness :
    (cache 172800000 true 0 [] "k" (ProducerResult.val JsVal.undef)).store = [] ∧
    (cache 172800000 true 0 [] "k" (ProducerResult.val JsVal.undef)).warns = 1 ∧
    (cache 172800000 true 0 [] "k" (ProducerResult.val JsVal.undef)).outcome
      = Outcome.resolved JsVal.undef ∧
    storeValuesNonNull
      (cache 172800000 true 0 [] "k" (ProducerResult.val JsVal.undef)).store = true :=
  ⟨((cache_never_persists_nullish 172800000 true 0 [] "k"
      (ProducerResult.val JsVal.undef) none).1 JsVal.undef rfl rfl rfl).1,
   ((cache_never_persists_nullish 172800000 true 0 [] "k"
      (ProducerResult.val JsVal.undef) none).1 JsVal.undef rfl rfl rfl).2.1,
   ((cache_never_persists_nullish 172800000 true 0 [] "k"
      (ProducerResult.val JsVal.undef) none).1 JsVal.undef rfl rfl rfl).2.2,
   (cache_never_persists_nullish 172800000 true 0 [] "k"
      (ProducerResult.val JsVal.undef) none).2.1 rfl⟩

/-- Claim C6: clear with an optional caller prefix (omitted taken as the
empty string) deletes exactly the backend keys starting with the namespace
followed by that prefix, regardless of entry freshness, and leaves every
other key present with its raw string unchanged. -/
theorem clear_deletes_exactly_matching (st : Store) (p : Option String)
    (k : String) :
    storeGet (clear st p) k =
      if startsWith k (NAMESPACE ++ p.getD "") then none else storeGet st k := by
  unfold clear
  rw [storeGet_foldl_storeDelete]
  by_cases hpre : startsWith k (NAMESPACE ++ p.getD "") = true
  · rw [if_pos hpre]
    by_cases hk : k ∈ storeKeys st
    · have hmem : k ∈ (storeKeys st).filter
          (fun k2 => startsWith k2 (NAMESPACE ++ p.getD "")) :=
        List.mem_filter.mpr ⟨hk, hpre⟩
      rw [if_pos hmem]
    · have hnm : ¬ k ∈ (storeKeys st).filter
          (fun k2 => startsWith k2 (NAMESPACE ++ p.getD "")) :=
        fun hmem => hk (List.mem_filter.mp hmem).1
      rw [if_neg hnm, storeGet_eq_none_of_not_mem st k hk]
  · have hpre2 : ¬ startsWith k (NAMESPACE ++ p.getD "") = true := hpre
    rw [if_neg hpre2]
    have hnm : ¬ k ∈ (storeKeys st).filter
        (fun k2 => startsWith k2 (NAMESPACE ++ p.getD "")) :=
      fun hmem => hpre (List.mem_filter.mp hmem).2
    rw [if_neg hnm]

/-- Claim C7 as frozen is false at the JSON-serializable value null: a
producer returning null on a miss has nothing persisted (line 132 refuses
the write), so a subsequent call within the TTL window is again a miss and
resolves with the second producer result, not with a value equal to
null. -/
theorem cache_roundtrip_null_fails :
    (cache 172800000 true 0 [] "k"
        (ProducerResult.val (JsVal.json Json.null))).store = [] ∧
    (cache 172800000 true 1000
        (cache 172800000 true 0 [] "k"
          (ProducerResult.val (JsVal.json Json.null))).store
        "k" (ProducerResult.val (JsVal.json (Json.num 42)))).outcome
      = Outcome.resolved (JsVal.json (Json.num 42)) :=
  ⟨rfl, rfl⟩

/-- Claim C7 amended: for every non-null JSON-serializable value v
returned by a producer on a miss for key k, the persisted raw string is
exactly the serialization of the object with fields stored = now and
value = v, and a subsequent cache call for k within the TTL window
resolves with a value structurally equal to v without running its
producer. -/
theorem cache_roundtrip (TTL : Int) (d d2 : Bool) (now now2 : Int)
    (st : Store) (k : String) (v : Json) (hv : v ≠ Json.null)
    (g : ProducerResult)
    (hmiss : storeGet st (NAMESPACE ++ k) = none)
    (hfresh : now2 - now ≤ TTL) :
    storeGet (cache TTL d now st k (ProducerResult.val (JsVal.json v))).store
        (NAMESPACE ++ k) = some (Raw.entry now v) ∧
    (cache TTL d2 now2
        (cache TTL d now st k (ProducerResult.val (JsVal.json v))).store
        k g).outcome = Outcome.resolved (JsVal.json v) ∧
    (cache TTL d2 now2
        (cache TTL d now st k (ProducerResult.val (JsVal.json v))).store
        k g).calls = 0 := by
  have h1 : cache TTL d now st k (ProducerResult.val (JsVal.json v)) =
      ⟨Outcome.resolved (JsVal.json v),
       storeSet st (NAMESPACE ++ k) (Raw.entry now v), 1, 0,
       if d then 1 else 0⟩ := by
    rw [cache_none_eq _ _ _ _ _ _ hmiss, cacheMiss_val_json _ _ _ _ _ hv]
  have h2 := storeGet_storeSet_self st (NAMESPACE ++ k) (Raw.entry now v)
  have h3 : cache TTL d2 now2 (storeSet st (NAMESPACE ++ k) (Raw.entry now v)) k g =
      ⟨Outcome.resolved (JsVal.json v),
       storeSet st (NAMESPACE ++ k) (Raw.entry now v), 0, 0, 0⟩ := by
    rw [cache_entry_eq _ _ _ _ _ _ _ _ h2, if_neg (by omega)]
  exact ⟨by simp [h1, h2], by simp [h1, h3], by simp [h1, h3]⟩

theorem cache_roundtrip_witness :
    storeGet (cache 86400000 true 0 [] "rating"
        (ProducerResult.val (JsVal.json (Json.str "8.9")))).store
      (NAMESPACE ++ "rating") = some (Raw.entry 0 (Json.str "8.9")) ∧
    (cache 86400000 true 1000
        (cache 86400000 true 0 [] "rating"
          (ProducerResult.val (JsVal.json (Json.str "8.9")))).store
        "rating" (ProducerResult.exn "not called")).outcome
      = Outcome.resolved (JsVal.json (Json.str "8.9")) ∧
    (cache 86400000 true 1000
        (cache 86400000 true 0 [] "rating"
          (ProducerResult.val (JsVal.json (Json.str "8.9")))).store
        "rating" (ProducerResult.exn "not called")).calls = 0 :=
  cache_roundtrip 86400000 true true 0 1000 [] "rating" (Json.str "8.9")
    (fun hq => Json.noConfusion hq) (ProducerResult.exn "not called") rfl
    (by decide)

/-- Claim C8 as frozen is false on the code: quiet does not scope the
suppression to the constructed instance.  Line 79 overwrites the debug
binding shared by the whole GMLib closure, so after one quiet construction
a distinct, non-quiet instance emits no debug line on a miss (it would
emit one had the quiet instance not been constructed), and GMXHR.get
emits none either. -/
theorem quiet_construction_silences_others :
    (Cache "local" none true true).2 = false ∧
    (cache 172800000 (Cache "script" none false (Cache "local" none true true).2).2
        0 [] "k" (ProducerResult.val (JsVal.json (Json.num 1)))).debugs = 0 ∧
    (cache 172800000 (Cache "script" none false true).2
        0 [] "k" (ProducerResult.val (JsVal.json (Json.num 1)))).debugs = 1 ∧
    (GMXHR.get (Cache "local" none true true).2 ⟨200, "body"⟩).2.1 = 0 ∧
    (GMXHR.get true ⟨200, "body"⟩).2.1 = 1 :=
  ⟨rfl, rfl, rfl, rfl, rfl⟩

theorem cache_debugs_silent (TTL : Int) (now : Int) (st : Store) (k : String)
    (f : ProducerResult) : (cache TTL false now st k f).debugs = 0 := by
  cases h : storeGet st (NAMESPACE ++ k) with
  | none =>
      rw [cache_none_eq _ _ _ _ _ _ h]
      exact cacheMiss_debugs now st k f
  | some r =>
      cases r with
      | entry T w =>
          rw [cache_entry_eq _ _ _ _ _ _ _ _ h]
          by_cases hexp : now - T > TTL
          · rw [if_pos hexp]; exact cacheMiss_debugs now st k f
          · rw [if_neg hexp]
      | junk txt =>
          rw [cache_junk_eq _ _ _ _ _ _ _ h]
          by_cases he : txt = ""
          · rw [if_pos he]; exact cacheMiss_debugs now st k f
          · rw [if_neg he]

/-- Claim C8 amended: a truthy quiet flag replaces the debug binding
shared by the whole library closure with a no-op, so from that
construction on debug-level output is suppressed for every cache instance
and for the HTTP client alike (a later non-quiet construction does not
restore it), while warnings (the refused-write warning here) and the HTTP
client error line are still emitted. -/
theorem quiet_silences_shared_debug (storageType : String) (ttl : Option Int)
    (d : Bool) :
    (Cache storageType ttl true d).2 = false ∧
    (Cache storageType ttl false d).2 = d ∧
    (∀ (TTL now : Int) (st : Store) (k : String) (f : ProducerResult),
        (cache TTL false now st k f).debugs = 0) ∧
    (∀ (TTL now : Int) (k : String),
        (cache TTL false now [] k (ProducerResult.val JsVal.undef)).warns = 1) ∧
    (∀ resp : XhrResponse, (GMXHR.get false resp).2.1 = 0) ∧
    (∀ body : String, (GMXHR.get false ⟨404, body⟩).2.2 = 1) := by
  refine ⟨?_, ?_, ?_, ?_, ?_, ?_⟩
  · unfold Cache
    cases chooseStorage storageType <;> rfl
  · unfold Cache
    cases chooseStorage storageType <;> rfl
  · intro TTL now st k f
    exact cache_debugs_silent TTL now st k f
  · intro TTL now k
    rfl
  · intro resp
    unfold GMXHR.get
    by_cases h : 200 ≤ resp.status ∧ resp.status < 300
    · rw [if_pos h]; rfl
    · rw [if_neg h]; rfl
  · intro body
    rfl

/-- Claim C9: chooseStorage maps the token local to the page-scoped
adapter and script to the script-scoped adapter, and the Cache factory
throws the invalid-storage-type error synchronously on every other token,
producing no instance. -/
theorem chooseStorage_selects_or_throws (s : String) :
    (s ≠ "local" → s ≠ "script" →
        ∀ (ttl : Option Int) (quiet : Bool) (d : Bool),
          (Cache s ttl quiet d).1 = Except.error
            "Invalid storage type! Valid options are \"local\" or \"script\"") ∧
    chooseStorage "local" = Except.ok StorageAdapter.siteStorage ∧
    chooseStorage "script" = Except.ok StorageAdapter.scriptStorage ∧
    (∀ (ttl : Option Int) (quiet d : Bool),
        (Cache "local" ttl quiet d).1
          = Except.ok ⟨ttlMillis ttl, StorageAdapter.siteStorage⟩ ∧
        (Cache "script" ttl quiet d).1
          = Except.ok ⟨ttlMillis ttl, StorageAdapter.scriptStorage⟩) := by
  refine ⟨?_, rfl, rfl, fun ttl quiet d => ⟨rfl, rfl⟩⟩
  intro h1 h2 ttl quiet d
  have hc : chooseStorage s = Except.error
      "Invalid storage type! Valid options are \"local\" or \"script\"" := by
    unfold chooseStorage
    rw [if_neg h1, if_neg h2]
  unfold Cache
  rw [hc]

theorem chooseStorage_selects_or_throws_witness :
    (Cache "bogus" none false true).1 = Except.error
      "Invalid storage type! Valid options are \"local\" or \"script\"" ∧
    chooseStorage "local" = Except.ok StorageAdapter.siteStorage :=
  ⟨(chooseStorage_selects_or_throws "bogus").1 (by decide) (by decide) none false true,
   (chooseStorage_selects_or_throws "bogus").2.1⟩

/-- Claim C10 as frozen is false in its final consequence: a negative ttl
argument is truthy in JS, so Cache(-1) yields TTL = -1000 milliseconds,
and then an entry written at time 0 is already expired when read back at
time 0 (0 - 0 > -1000): the producer is re-invoked immediately, so
construction-time configuration can make every entry immediately
expired. -/
theorem negative_ttl_immediate_expiry :
    ttlMillis (some (-1)) = -1000 ∧
    (cache (ttlMillis (some (-1))) true 0
        [(NAMESPACE ++ "k", Raw.entry 0 (Json.num 7))] "k"
        (ProducerResult.val (JsVal.json (Json.num 1)))).calls = 1 :=
  ⟨by decide, rfl⟩

/-- Claim C10 amended: every falsy ttl argument - omitted or an explicit
0 - yields the two-day default of 172800000 milliseconds, no argument
yields a TTL of exactly zero, and under every nonnegative TTL (in
particular the default) an entry read back at the instant it was written
is still fresh: it is served without invoking the producer.  A negative
ttl argument, being truthy, escapes the default and does make entries
immediately expired. -/
theorem ttl_falsy_default :
    ttlMillis none = 172800000 ∧
    ttlMillis (some 0) = 172800000 ∧
    (∀ t : Option Int, ttlMillis t ≠ 0) ∧
    (∀ (t : Option Int) (d : Bool) (T : Int) (st : Store) (k : String)
        (w : Json) (f : ProducerResult),
        0 ≤ ttlMillis t →
        storeGet st (NAMESPACE ++ k) = some (Raw.entry T w) →
        (cache (ttlMillis t) d T st k f).calls = 0 ∧
        (cache (ttlMillis t) d T st k f).outcome
          = Outcome.resolved (JsVal.json w)) := by
  refine ⟨rfl, rfl, ?_, ?_⟩
  · intro t
    match t with
    | none => decide
    | some x =>
        by_cases hx : x = 0
        · simp [ttlMillis, hx]
        · simp only [ttlMillis, if_neg hx]
          omega
  · intro t d T st k w f h0 h
    rw [cache_entry_eq _ _ _ _ _ _ _ _ h, if_neg (by omega)]
    exact ⟨rfl, rfl⟩

theorem ttl_falsy_default_witness :
    ttlMillis (some 3) ≠ 0 ∧
    ((0:Int) ≤ ttlMillis none ∧
     storeGet [(NAMESPACE ++ "k", Raw.entry 5 (Json.num 7))] (NAMESPACE ++ "k")
       = some (Raw.entry 5 (Json.num 7))) ∧
    (cache (ttlMillis none) true 5
        [(NAMESPACE ++ "k", Raw.entry 5 (Json.num 7))] "k"
        (ProducerResult.val (JsVal.json (Json.num 1)))).calls = 0 ∧
    (cache (ttlMillis none) true 5
        [(NAMESPACE ++ "k", Raw.entry 5 (Json.num 7))] "k"
        (ProducerResult.val (JsVal.json (Json.num 1)))).outcome
      = Outcome.resolved (JsVal.json (Json.num 7)) :=
  ⟨ttl_falsy_default.2.2.1 (some 3),
   ⟨by decide, rfl⟩,
   (ttl_falsy_default.2.2.2 none true 5
      [(NAMESPACE ++ "k", Raw.entry 5 (Json.num 7))] "k" (Json.num 7)
      (ProducerResult.val (JsVal.json (Json.num 1))) (by decide) rfl).1,
   (ttl_falsy_default.2.2.2 none true 5
      [(NAMESPACE ++ "k", Raw.entry 5 (Json.num 7))] "k" (Json.num 7)
      (ProducerResult.val (JsVal.json (Json.num 1))) (by decide) rfl).2⟩

end GMLib
